import Mathlib

/-!
Shallow embedding of `src/templates/apps/egui/src/lib.rs`, the single source
file of the repository: an egui + wgpu + winit demo application.  Library
handles (the egui context, the egui_winit input state, the demo app, the
render pass) are opaque tokens of type `Nat`; the behaviour of each external
library call is an abstract function supplied by an `Env` record, so the
embedding fixes only the control flow, data flow and call sequence that the
Rust file itself authors.  Observable side effects (logging, GPU submission,
surface presentation, control-flow assignments) are recorded in a trace of
`Action`s.
-/

namespace EguiApp

/-- winit's `ControlFlow` enum (the variants relevant to this program). -/
inductive ControlFlow where
  | Poll
  | Wait
  | Exit
deriving DecidableEq, Repr

/-- The custom user event type declared in the source:
`enum Event { RequestRedraw }` (named `AppEvent` here to avoid clashing with
the winit event type below). -/
inductive AppEvent where
  | RequestRedraw
deriving DecidableEq, Repr

/-- winit `WindowEvent`s, as distinguished by the inner `match` of the event
handler: `Resized(size)`, `CloseRequested`, and everything else (which the
source forwards to `state.on_event`).  `Other tag` stands for any of the
remaining window-event variants. -/
inductive WindowEvent where
  | Resized (width height : Nat)
  | CloseRequested
  | Other (tag : Nat)
deriving DecidableEq, Repr

/-- winit `Event`s, as distinguished by the outer `match` of the event
handler: `RedrawRequested(..)`, `UserEvent(Event::RequestRedraw)`,
`MainEventsCleared`, `WindowEvent { event, .. }`, and everything else
(`_ => ()`). -/
inductive WinitEvent where
  | RedrawRequested
  | UserEvent (e : AppEvent)
  | MainEventsCleared
  | WindowEvent (e : WindowEvent)
  | Other (tag : Nat)
deriving DecidableEq, Repr

/-- wgpu `SurfaceConfiguration` as built in `main` (lines 85-91).  `usage`,
`format` and `present_mode` are opaque tokens. -/
structure SurfaceConfiguration where
  usage : Nat
  format : Nat
  width : Nat
  height : Nat
  present_mode : Nat
deriving DecidableEq, Repr

/-- Opaque token standing for `wgpu::TextureUsages::RENDER_ATTACHMENT`. -/
def RENDER_ATTACHMENT : Nat := 0

/-- Opaque token standing for `wgpu::PresentMode::Mailbox`. -/
def Mailbox : Nat := 1

/-- egui_wgpu_backend's `ScreenDescriptor` as built in the redraw closure
(lines 159-163).  The f32 scale factor is an opaque `Nat` scalar. -/
structure ScreenDescriptor where
  physical_width : Nat
  physical_height : Nat
  scale_factor : Nat
deriving DecidableEq, Repr

/-- epi's `IntegrationInfo` as built in the redraw closure (lines 131-137).
The f32 timing scalar is abstracted to `Nat`. -/
structure IntegrationInfo where
  name : String
  web_info : Option Nat
  cpu_usage : Option Nat
  native_pixels_per_point : Option Nat
  prefer_dark_mode : Option Bool
deriving DecidableEq, Repr

/-- The mutable state captured by the event-loop closure: the surface
configuration, the cached previous-frame timing scalar, and the opaque
library handles `state` (egui_winit input state), `ctx` (egui context),
`demo_app` and `egui_rpass`. -/
structure LoopState where
  surface_config : SurfaceConfiguration
  previous_frame_time : Option Nat
  winit_state : Nat
  ctx : Nat
  demo_app : Nat
  egui_rpass : Nat
deriving DecidableEq, Repr

/-- Per-dispatch environment: the results and behaviour of the external
library calls the handler makes.  Function fields describe how a library
call transforms the opaque handle it mutably borrows; scalar fields are the
values the environment returns (frame-acquisition outcome, measured frame
time, window scale factor). -/
structure Env where
  get_current_texture : Except String Nat
  frame_time : Nat
  scale_factor : Nat
  take_egui_input : Nat → Nat × Nat
  begin_frame : Nat → Nat → Nat
  demo_update : Nat → Nat → Nat → IntegrationInfo → Nat × Nat × Nat
  end_frame : Nat → Nat × Nat
  tessellate : Nat → Nat → Nat
  update_texture : Nat → Nat → Nat
  update_user_textures : Nat → Nat
  update_buffers : Nat → Nat → ScreenDescriptor → Nat
  execute_result : Except String Unit
  on_event : Nat → Nat → WindowEvent → Nat

/-- Observable actions of one dispatch of the event handler, in program
order. -/
inductive Action where
  | setControlFlow (cf : ControlFlow)
  | logDroppedFrame (msg : String)
  | acquireFrame
  | createView
  | takeEguiInput
  | beginFrame
  | updateDemoApp
  | endFrame
  | tessellate
  | createEncoder
  | updateTexture
  | updateUserTextures
  | updateBuffers (sd : ScreenDescriptor)
  | executeRenderPass
  | submitQueue
  | presentFrame
  | configureSurface (cfg : SurfaceConfiguration)
  | onEvent
deriving DecidableEq, Repr

/-- The `redraw` closure (lines 113-183).  Returns `.error` when a library
`unwrap` panics (the `egui_rpass.execute(..).unwrap()` at line 177), carrying
the panic message and the trace up to the panic; otherwise the updated state,
the `IntegrationInfo` handed to the UI frame (`none` when the frame was
skipped), and the action trace.  A failed `surface.get_current_texture()`
logs and returns early with the state unchanged. -/
def redraw (env : Env) (s : LoopState) :
    Except (String × List Action)
      (LoopState × Option IntegrationInfo × List Action) :=
  match env.get_current_texture with
  | .error e =>
      .ok (s, none, [.logDroppedFrame ("Dropped frame with error: " ++ e)])
  | .ok _output_frame =>
      let ri := env.take_egui_input s.winit_state
      let raw_input := ri.1
      let winit_state' := ri.2
      let ctx1 := env.begin_frame s.ctx raw_input
      let info : IntegrationInfo :=
        { name := "egui_winit"
          web_info := none
          cpu_usage := s.previous_frame_time
          native_pixels_per_point := some env.scale_factor
          prefer_dark_mode := none }
      let du := env.demo_update s.demo_app ctx1 s.egui_rpass info
      let demo_app' := du.1
      let ctx_mid := du.2.1
      let rpass1 := du.2.2
      let ef := env.end_frame ctx_mid
      let ctx2 := ef.1
      let paint_commands := ef.2
      let paint_jobs := env.tessellate ctx2 paint_commands
      let previous_frame_time' := some env.frame_time
      let screen_descriptor : ScreenDescriptor :=
        { physical_width := s.surface_config.width
          physical_height := s.surface_config.height
          scale_factor := env.scale_factor }
      let rpass2 := env.update_texture rpass1 ctx2
      let rpass3 := env.update_user_textures rpass2
      let rpass4 := env.update_buffers rpass3 paint_jobs screen_descriptor
      let tr : List Action :=
        [.acquireFrame, .createView, .takeEguiInput, .beginFrame,
         .updateDemoApp, .endFrame, .tessellate, .createEncoder,
         .updateTexture, .updateUserTextures, .updateBuffers screen_descriptor,
         .executeRenderPass]
      match env.execute_result with
      | .error e => .error (e, tr)
      | .ok () =>
          .ok ({ s with
                  winit_state := winit_state'
                  ctx := ctx2
                  demo_app := demo_app'
                  egui_rpass := rpass4
                  previous_frame_time := previous_frame_time' },
               some info,
               tr ++ [.submitQueue, .presentFrame])

/-- Is the event one of the three that trigger the redraw closure
(`RedrawRequested(..) | UserEvent(Event::RequestRedraw) | MainEventsCleared`,
line 185)? -/
def qualifying : WinitEvent → Bool
  | .RedrawRequested => true
  | .UserEvent .RequestRedraw => true
  | .MainEventsCleared => true
  | _ => false

/-- One dispatch of the event-loop closure (lines 110-205): first
`*control_flow = ControlFlow::Wait`, then the `match` on the event.  Returns
the updated state, the final value of `control_flow`, and the action trace,
or `.error` when a library `unwrap` inside `redraw` panics. -/
def handle_event (env : Env) (ev : WinitEvent) (s : LoopState) :
    Except (String × List Action) (LoopState × ControlFlow × List Action) :=
  let tr0 : List Action := [.setControlFlow .Wait]
  match ev with
  | .RedrawRequested | .UserEvent .RequestRedraw | .MainEventsCleared =>
      match redraw env s with
      | .error (e, tr) => .error (e, tr0 ++ tr)
      | .ok (s', _info, tr) => .ok (s', .Wait, tr0 ++ tr)
  | .WindowEvent we =>
      match we with
      | .Resized w h =>
          let cfg' := { s.surface_config with width := w, height := h }
          .ok ({ s with surface_config := cfg' }, .Wait,
               tr0 ++ [.configureSurface cfg'])
      | .CloseRequested =>
          .ok (s, .Exit, tr0 ++ [.setControlFlow .Exit])
      | .Other t =>
          .ok ({ s with
                  winit_state := env.on_event s.winit_state s.ctx (.Other t) },
               .Wait, tr0 ++ [.onEvent])
  | .Other _ => .ok (s, .Wait, tr0)

/-- The trace of a dispatch, whether it completed or panicked. -/
def handleTrace :
    Except (String × List Action) (LoopState × ControlFlow × List Action) →
      List Action
  | .error (_, tr) => tr
  | .ok (_, _, tr) => tr

/-- The `winit::window::WindowBuilder` settings applied in `main`
(lines 47-54). -/
structure WindowBuilderConfig where
  decorations : Bool
  transparent : Bool
  title : String
  inner_width : Nat
  inner_height : Nat
deriving DecidableEq, Repr

/-- The window-builder configuration `main` constructs: decorations on,
transparency off, title "A fantastic window!", inner size given by the
float literals `1280.0` x `720.0` (exactly the integers 1280 and 720). -/
def main_window_builder : WindowBuilderConfig :=
  { decorations := true
    transparent := false
    title := "A fantastic window!"
    inner_width := 1280
    inner_height := 720 }

/-- wgpu's `PowerPreference` enum. -/
inductive PowerPreference where
  | LowPower
  | HighPerformance
deriving DecidableEq, Repr

/-- wgpu's `RequestAdapterOptions` as built in `main` (lines 66-70);
`compatible_surface: Some(&surface)` is recorded as a Boolean. -/
structure RequestAdapterOptions where
  power_preference : PowerPreference
  compatible_surface : Bool
  force_fallback_adapter : Bool
deriving DecidableEq, Repr

/-- The adapter-request options `main` passes to `instance.request_adapter`:
high-performance power preference, compatible surface supplied, and
`force_fallback_adapter: false`. -/
def main_request_adapter_options : RequestAdapterOptions :=
  { power_preference := .HighPerformance
    compatible_surface := true
    force_fallback_adapter := false }

/-- Startup environment: the outcomes of the fallible external calls `main`
makes before entering the event loop, and the window's inner size as
reported by `window.inner_size()`. -/
structure StartupEnv where
  window_build : Option Nat
  request_adapter : Option Nat
  request_device : Option (Nat × Nat)
  get_preferred_format : Option Nat
  inner_width : Nat
  inner_height : Nat

/-- Outcome of `main`'s startup sequence: either some `.unwrap()` panicked
and the process aborted, or the event loop is entered with the given initial
surface configuration. -/
inductive StartupResult where
  | panicked
  | started (cfg : SurfaceConfiguration)
deriving DecidableEq, Repr

/-- The startup sequence of `main` (lines 46-92): build the window, request
the adapter with `main_request_adapter_options`, request the device, pick the
preferred surface format, build the surface configuration and configure the
surface.  Each `.unwrap()` on a failed call aborts. -/
def main_startup (env : StartupEnv) : StartupResult :=
  match env.window_build with
  | none => .panicked
  | some _window =>
      match env.request_adapter with
      | none => .panicked
      | some _adapter =>
          match env.request_device with
          | none => .panicked
          | some _dq =>
              match env.get_preferred_format with
              | none => .panicked
              | some fmt =>
                  .started
                    { usage := RENDER_ATTACHMENT
                      format := fmt
                      width := env.inner_width
                      height := env.inner_height
                      present_mode := Mailbox }

/-- The closure state as `main` initialises it before `event_loop.run`
(lines 100-108): `previous_frame_time` starts as `None`; the library handles
start from their library constructors (opaque token 0). -/
def initLoopState (cfg : SurfaceConfiguration) : LoopState :=
  { surface_config := cfg
    previous_frame_time := none
    winit_state := 0
    ctx := 0
    demo_app := 0
    egui_rpass := 0 }

/-- Observable actions of `ExampleRepaintSignal::request_repaint`. -/
inductive RepaintAction where
  | lockMutex
  | sendEvent (e : AppEvent)
  | unlockMutex
deriving DecidableEq, Repr

/-- winit's `EventLoopProxy::send_event`: appends the user event to the
event loop's queue and returns `Ok(())` while the loop is alive, and returns
`Err(EventLoopClosed)` leaving the queue untouched once it is gone. -/
def send_event (loop_alive : Bool) (queue : List AppEvent) (e : AppEvent) :
    List AppEvent × Except Unit Unit :=
  if loop_alive then (queue ++ [e], .ok ()) else (queue, .error ())

/-- `ExampleRepaintSignal::request_repaint` (lines 24-26): lock the mutex
around the proxy, `send_event(Event::RequestRedraw)`, and discard the result
with `.ok()`.  Returns the resulting event queue and the action trace. -/
def request_repaint (loop_alive : Bool) (queue : List AppEvent) :
    List AppEvent × List RepaintAction :=
  let (queue', r) := send_event loop_alive queue .RequestRedraw
  let _discarded := r.toOption
  (queue', [.lockMutex, .sendEvent .RequestRedraw, .unlockMutex])

/-- The action sequence of a successful pass through the redraw closure, in
program order: acquire the frame, create the view, take the egui input,
begin the UI frame, update the demo app, end the UI frame, tessellate,
create the command encoder, upload textures and buffers, record the render
pass, submit, present. -/
def successTrace (sd : ScreenDescriptor) : List Action :=
  [.acquireFrame, .createView, .takeEguiInput, .beginFrame, .updateDemoApp,
   .endFrame, .tessellate, .createEncoder, .updateTexture,
   .updateUserTextures, .updateBuffers sd, .executeRenderPass, .submitQueue,
   .presentFrame]

/-- Actions emitted only from inside the redraw closure. -/
def isRedrawAction : Action → Bool
  | .logDroppedFrame _ => true
  | .acquireFrame => true
  | .createView => true
  | .takeEguiInput => true
  | .beginFrame => true
  | .updateDemoApp => true
  | .endFrame => true
  | .tessellate => true
  | .createEncoder => true
  | .updateTexture => true
  | .updateUserTextures => true
  | .updateBuffers _ => true
  | .executeRenderPass => true
  | .submitQueue => true
  | .presentFrame => true
  | _ => false

/-- The trace of one call to the redraw closure, whether it completed,
skipped the frame, or panicked. -/
def redrawTraceOf (env : Env) (s : LoopState) : List Action :=
  match redraw env s with
  | .error (_, tr) => tr
  | .ok (_, _, tr) => tr

/-- Erase the `previous_frame_time` field of a dispatch result's state, for
stating what the rest of the state does not depend on. -/
def erasePFT :
    Except (String × List Action) (LoopState × ControlFlow × List Action) →
      Except (String × List Action) (LoopState × ControlFlow × List Action)
  | .error x => .error x
  | .ok (s, cf, tr) => .ok ({ s with previous_frame_time := none }, cf, tr)

/-! Concrete fixtures used by the witness theorems: a surface configuration,
an initial loop state, and environments with simple concrete library
behaviour. -/

/-- A concrete surface configuration. -/
def cfg0 : SurfaceConfiguration :=
  { usage := RENDER_ATTACHMENT, format := 3, width := 1280, height := 720
    present_mode := Mailbox }

/-- A concrete initial loop state. -/
def state0 : LoopState := initLoopState cfg0

/-- A concrete environment in which every external call succeeds. -/
def envOkLib : Env :=
  { get_current_texture := .ok 7
    frame_time := 5
    scale_factor := 2
    take_egui_input := fun _w => (10, 11)
    begin_frame := fun _c _r => 12
    demo_update := fun _d _c _r _i => (13, 14, 15)
    end_frame := fun _c => (16, 17)
    tessellate := fun _c _p => 18
    update_texture := fun _r _c => 19
    update_user_textures := fun _r => 20
    update_buffers := fun _r _p _sd => 21
    execute_result := .ok ()
    on_event := fun _w _c _e => 22 }

/-- A concrete environment in which frame acquisition fails. -/
def envErr : Env :=
  { envOkLib with get_current_texture := .error "Outdated" }

/-- C1: when `surface.get_current_texture()` fails on a redraw-triggering
event, the error is logged and the closure returns early with the state
unchanged: the dispatch trace is just the `Wait` assignment and the log
line, so no render pass is recorded, nothing is submitted or presented, and
the control flow is left at `Wait`, never `Exit`. -/
theorem frame_error_skips_frame (env : Env) (s : LoopState) (e : String)
    (ev : WinitEvent) (h : env.get_current_texture = .error e)
    (hq : qualifying ev = true) :
    handle_event env ev s =
      .ok (s, ControlFlow.Wait,
        [.setControlFlow .Wait,
         .logDroppedFrame ("Dropped frame with error: " ++ e)]) ∧
    Action.executeRenderPass ∉ handleTrace (handle_event env ev s) ∧
    Action.submitQueue ∉ handleTrace (handle_event env ev s) ∧
    Action.presentFrame ∉ handleTrace (handle_event env ev s) ∧
    ∀ s' cf tr, handle_event env ev s = .ok (s', cf, tr) →
      cf ≠ ControlFlow.Exit := by
  have hr : redraw env s =
      .ok (s, none, [.logDroppedFrame ("Dropped frame with error: " ++ e)]) := by
    simp [redraw, h]
  have key : handle_event env ev s =
      .ok (s, ControlFlow.Wait,
        [.setControlFlow .Wait,
         .logDroppedFrame ("Dropped frame with error: " ++ e)]) := by
    cases ev with
    | RedrawRequested => simp [handle_event, hr]
    | UserEvent e' => cases e'; simp [handle_event, hr]
    | MainEventsCleared => simp [handle_event, hr]
    | WindowEvent we => simp [qualifying] at hq
    | Other t => simp [qualifying] at hq
  refine ⟨key, ?_, ?_, ?_, ?_⟩
  · rw [key]; simp [handleTrace]
  · rw [key]; simp [handleTrace]
  · rw [key]; simp [handleTrace]
  · intro s' cf tr hh
    rw [key] at hh
    simp only [Except.ok.injEq, Prod.mk.injEq] at hh
    rcases hh with ⟨-, hcf, -⟩
    rw [← hcf]
    simp

/-- Witness for C1 at a concrete failing environment and event. -/
theorem frame_error_skips_frame_witness :
    handle_event envErr .RedrawRequested state0 =
      .ok (state0, ControlFlow.Wait,
        [.setControlFlow .Wait,
         .logDroppedFrame ("Dropped frame with error: " ++ "Outdated")]) ∧
    Action.executeRenderPass ∉
      handleTrace (handle_event envErr .RedrawRequested state0) ∧
    Action.submitQueue ∉
      handleTrace (handle_event envErr .RedrawRequested state0) ∧
    Action.presentFrame ∉
      handleTrace (handle_event envErr .RedrawRequested state0) ∧
    ControlFlow.Wait ≠ ControlFlow.Exit := by
  have T := frame_error_skips_frame envErr state0 "Outdated" .RedrawRequested
    rfl rfl
  exact ⟨T.1, T.2.1, T.2.2.1, T.2.2.2.1, T.2.2.2.2 state0 .Wait _ T.1⟩

/-- C2: if `instance.request_adapter` or `adapter.request_device` returns a
failure at startup, `main` panics through `.unwrap()` and the process
aborts; the adapter options it uses have `force_fallback_adapter: false`,
so no fallback adapter path is attempted. -/
theorem adapter_or_device_failure_panics (env : StartupEnv)
    (h : env.request_adapter = none ∨ env.request_device = none) :
    main_startup env = .panicked ∧
    main_request_adapter_options.force_fallback_adapter = false := by
  refine ⟨?_, rfl⟩
  unfold main_startup
  rcases h with h | h <;> rw [h] <;>
    cases env.window_build <;> try rfl
  cases env.request_adapter <;> rfl

/-- Witness for C2 at a concrete startup environment whose adapter request
fails. -/
theorem adapter_or_device_failure_panics_witness :
    main_startup
        { window_build := some 0, request_adapter := none
          request_device := some (0, 0), get_preferred_format := some 0
          inner_width := 1280, inner_height := 720 } = .panicked ∧
      main_request_adapter_options.force_fallback_adapter = false :=
  adapter_or_device_failure_panics
    { window_build := some 0, request_adapter := none
      request_device := some (0, 0), get_preferred_format := some 0
      inner_width := 1280, inner_height := 720 }
    (Or.inl rfl)

/-- C6: the window built by `main` has title "A fantastic window!", inner
size 1280 x 720, decorations enabled and transparency disabled. -/
theorem window_builder_settings :
    main_window_builder.title = "A fantastic window!" ∧
    main_window_builder.inner_width = 1280 ∧
    main_window_builder.inner_height = 720 ∧
    main_window_builder.decorations = true ∧
    main_window_builder.transparent = false :=
  ⟨rfl, rfl, rfl, rfl, rfl⟩

/-- C7: `request_repaint` locks the proxy mutex and sends exactly one
`RequestRedraw` event; when the event loop is alive exactly one event is
appended to its queue, and when it is gone the failed send is discarded
(queue unchanged, no propagation), with no other action performed. -/
theorem request_repaint_sends_one (loop_alive : Bool)
    (queue : List AppEvent) :
    (request_repaint loop_alive queue).2 =
      [.lockMutex, .sendEvent .RequestRedraw, .unlockMutex] ∧
    (request_repaint loop_alive queue).1 =
      if loop_alive then queue ++ [AppEvent.RequestRedraw] else queue := by
  cases loop_alive <;> simp [request_repaint, send_event]

/-- C10: a skipped frame is atomic: when `surface.get_current_texture()`
fails, the redraw closure returns with the entire loop state (surface
configuration, previous frame time, egui context, winit input state, demo
app, render pass) exactly as it was, having only logged the error. -/
theorem skipped_frame_state_unchanged (env : Env) (s : LoopState)
    (e : String) (h : env.get_current_texture = .error e) :
    redraw env s =
      .ok (s, none,
        [.logDroppedFrame ("Dropped frame with error: " ++ e)]) := by
  simp [redraw, h]

/-- Witness for C10 at a concrete failing environment. -/
theorem skipped_frame_state_unchanged_witness :
    redraw envErr state0 =
      .ok (state0, none,
        [.logDroppedFrame ("Dropped frame with error: " ++ "Outdated")]) :=
  skipped_frame_state_unchanged envErr state0 "Outdated" rfl

/-- On the three redraw-triggering events the dispatch is the `Wait`
assignment followed by the redraw closure. -/
theorem handle_event_qualifying (env : Env) (ev : WinitEvent)
    (s : LoopState) (hq : qualifying ev = true) :
    handle_event env ev s =
      match redraw env s with
      | .error (e, tr) => .error (e, .setControlFlow .Wait :: tr)
      | .ok (s', _info, tr) => .ok (s', .Wait, .setControlFlow .Wait :: tr) := by
  cases hr : redraw env s with
  | error p =>
      rcases p with ⟨e, tr⟩
      cases ev with
      | RedrawRequested => simp [handle_event, hr]
      | UserEvent e' => cases e'; simp [handle_event, hr]
      | MainEventsCleared => simp [handle_event, hr]
      | WindowEvent we => simp [qualifying] at hq
      | Other t => simp [qualifying] at hq
  | ok q =>
      rcases q with ⟨s', info, tr⟩
      cases ev with
      | RedrawRequested => simp [handle_event, hr]
      | UserEvent e' => cases e'; simp [handle_event, hr]
      | MainEventsCleared => simp [handle_event, hr]
      | WindowEvent we => simp [qualifying] at hq
      | Other t => simp [qualifying] at hq

/-- On a redraw-triggering event the dispatch trace is the `Wait` assignment
followed by the redraw closure's trace. -/
theorem handleTrace_qualifying (env : Env) (ev : WinitEvent) (s : LoopState)
    (hq : qualifying ev = true) :
    handleTrace (handle_event env ev s) =
      .setControlFlow .Wait :: redrawTraceOf env s := by
  rw [handle_event_qualifying env ev s hq]
  unfold redrawTraceOf
  cases redraw env s with
  | error p => rcases p with ⟨e, tr⟩; rfl
  | ok q => rcases q with ⟨s', i, tr⟩; rfl

/-- The redraw closure never assigns the control flow. -/
theorem redraw_no_setControlFlow (env : Env) (s : LoopState)
    (cf : ControlFlow) :
    Action.setControlFlow cf ∉ redrawTraceOf env s := by
  cases hg : env.get_current_texture with
  | error e => simp [redrawTraceOf, redraw, hg]
  | ok f =>
      cases hx : env.execute_result with
      | error e2 => simp [redrawTraceOf, redraw, hg, hx]
      | ok u => cases u; simp [redrawTraceOf, redraw, hg, hx]

/-- The control flow a completed dispatch leaves behind: `Exit` exactly on
`CloseRequested`, `Wait` otherwise. -/
theorem control_flow_of_ok (env : Env) (ev : WinitEvent) (s s' : LoopState)
    (cf : ControlFlow) (tr : List Action)
    (h : handle_event env ev s = .ok (s', cf, tr)) :
    (cf = ControlFlow.Exit ↔ ev = .WindowEvent .CloseRequested) ∧
    (cf = ControlFlow.Wait ∨ cf = ControlFlow.Exit) := by
  by_cases hq : qualifying ev = true
  · rw [handle_event_qualifying env ev s hq] at h
    cases hr : redraw env s with
    | error p =>
        rcases p with ⟨e, tr2⟩
        rw [hr] at h
        exact absurd h (by simp)
    | ok q =>
        rcases q with ⟨s2, i2, tr2⟩
        rw [hr] at h
        simp only [Except.ok.injEq, Prod.mk.injEq] at h
        rcases h with ⟨-, hcf, -⟩
        rw [← hcf]
        refine ⟨⟨fun hx => absurd hx (by simp), fun hev => ?_⟩, Or.inl rfl⟩
        subst hev
        simp [qualifying] at hq
  · cases ev with
    | RedrawRequested => simp [qualifying] at hq
    | UserEvent e' => cases e'; simp [qualifying] at hq
    | MainEventsCleared => simp [qualifying] at hq
    | Other t =>
        simp only [handle_event, Except.ok.injEq, Prod.mk.injEq] at h
        rcases h with ⟨-, hcf, -⟩
        rw [← hcf]
        exact ⟨by simp, Or.inl rfl⟩
    | WindowEvent we =>
        cases we with
        | Resized w ht =>
            simp only [handle_event, Except.ok.injEq, Prod.mk.injEq] at h
            rcases h with ⟨-, hcf, -⟩
            rw [← hcf]
            exact ⟨by simp, Or.inl rfl⟩
        | CloseRequested =>
            simp only [handle_event, Except.ok.injEq, Prod.mk.injEq] at h
            rcases h with ⟨-, hcf, -⟩
            rw [← hcf]
            exact ⟨by simp, Or.inr rfl⟩
        | Other t =>
            simp only [handle_event, Except.ok.injEq, Prod.mk.injEq] at h
            rcases h with ⟨-, hcf, -⟩
            rw [← hcf]
            exact ⟨by simp, Or.inl rfl⟩

/-- C3: a completed dispatch leaves the control flow at `Exit` exactly when
the event was `WindowEvent::CloseRequested`; no other event sets `Exit`. -/
theorem exit_iff_close_requested (env : Env) (ev : WinitEvent)
    (s s' : LoopState) (cf : ControlFlow) (tr : List Action)
    (h : handle_event env ev s = .ok (s', cf, tr)) :
    cf = ControlFlow.Exit ↔ ev = .WindowEvent .CloseRequested :=
  (control_flow_of_ok env ev s s' cf tr h).1

/-- Witness for C3 at the concrete close-request event. -/
theorem exit_iff_close_requested_witness :
    ControlFlow.Exit = ControlFlow.Exit ↔
      WinitEvent.WindowEvent .CloseRequested =
        WinitEvent.WindowEvent .CloseRequested :=
  exit_iff_close_requested envOkLib (.WindowEvent .CloseRequested) state0
    state0 .Exit [.setControlFlow .Wait, .setControlFlow .Exit] rfl

/-- C4: the handler first sets the control flow to `Wait` on every dispatch,
every control-flow value it ever assigns is `Wait` or `Exit` (never `Poll`),
and a completed dispatch ends at `Wait` unless the event was
`CloseRequested`, in which case it ends at `Exit`. -/
theorem wait_based_loop (env : Env) (ev : WinitEvent) (s : LoopState) :
    (handleTrace (handle_event env ev s)).head? =
      some (.setControlFlow .Wait) ∧
    (∀ cf, Action.setControlFlow cf ∈ handleTrace (handle_event env ev s) →
        cf = ControlFlow.Wait ∨ cf = ControlFlow.Exit) ∧
    ∀ s' cf tr, handle_event env ev s = .ok (s', cf, tr) →
      (cf = ControlFlow.Exit ↔ ev = .WindowEvent .CloseRequested) ∧
      (cf = ControlFlow.Wait ∨ cf = ControlFlow.Exit) := by
  refine ⟨?_, ?_, fun s' cf tr h => control_flow_of_ok env ev s s' cf tr h⟩
  · by_cases hq : qualifying ev = true
    · rw [handleTrace_qualifying env ev s hq]; rfl
    · cases ev with
      | RedrawRequested => simp [qualifying] at hq
      | UserEvent e' => cases e'; simp [qualifying] at hq
      | MainEventsCleared => simp [qualifying] at hq
      | WindowEvent we => cases we <;> simp [handle_event, handleTrace]
      | Other t => simp [handle_event, handleTrace]
  · intro cf hmem
    by_cases hq : qualifying ev = true
    · rw [handleTrace_qualifying env ev s hq] at hmem
      rcases List.mem_cons.mp hmem with hhd | htl
      · injection hhd with h2; exact Or.inl h2
      · exact absurd htl (redraw_no_setControlFlow env s cf)
    · cases ev with
      | RedrawRequested => simp [qualifying] at hq
      | UserEvent e' => cases e'; simp [qualifying] at hq
      | MainEventsCleared => simp [qualifying] at hq
      | WindowEvent we =>
          cases we with
          | Resized w ht =>
              simp [handle_event, handleTrace] at hmem
              exact Or.inl hmem
          | CloseRequested =>
              simp [handle_event, handleTrace] at hmem
              rcases hmem with hmem | hmem
              · exact Or.inl hmem
              · exact Or.inr hmem
          | Other t =>
              simp [handle_event, handleTrace] at hmem
              exact Or.inl hmem
      | Other t =>
          simp [handle_event, handleTrace] at hmem
          exact Or.inl hmem

/-- Witness for C4 at the concrete close-request event. -/
theorem wait_based_loop_witness :
    (handleTrace
        (handle_event envOkLib (.WindowEvent .CloseRequested) state0)).head? =
      some (.setControlFlow .Wait) ∧
    (ControlFlow.Exit = ControlFlow.Exit ↔
      WinitEvent.WindowEvent .CloseRequested =
        WinitEvent.WindowEvent .CloseRequested) ∧
    (ControlFlow.Exit = ControlFlow.Wait ∨
      ControlFlow.Exit = ControlFlow.Exit) := by
  have T := wait_based_loop envOkLib (.WindowEvent .CloseRequested) state0
  have h3 := T.2.2 state0 .Exit [.setControlFlow .Wait, .setControlFlow .Exit]
    rfl
  exact ⟨T.1, h3.1, h3.2⟩

/-- C5: on each of the three redraw-triggering events, with frame
acquisition and render-pass recording succeeding, the dispatch performs
exactly the redraw sequence in program order (acquire, take input, one UI
frame over the demo app, tessellate, upload, record, submit, present); on
every other event no redraw-closure action is performed. -/
theorem redraw_sequence (env : Env) (s : LoopState) (f : Nat)
    (hf : env.get_current_texture = .ok f)
    (hx : env.execute_result = .ok ())
    (ev : WinitEvent) (hq : qualifying ev = true) :
    handleTrace (handle_event env ev s) =
      .setControlFlow .Wait ::
        successTrace
          { physical_width := s.surface_config.width
            physical_height := s.surface_config.height
            scale_factor := env.scale_factor } ∧
    ∀ ev', qualifying ev' = false →
      ∀ a ∈ handleTrace (handle_event env ev' s),
        isRedrawAction a = false := by
  constructor
  · rw [handleTrace_qualifying env ev s hq]
    simp [redrawTraceOf, redraw, hf, hx, successTrace]
  · intro ev' hq' a ha
    cases ev' with
    | RedrawRequested => simp [qualifying] at hq'
    | UserEvent e' => cases e'; simp [qualifying] at hq'
    | MainEventsCleared => simp [qualifying] at hq'
    | WindowEvent we =>
        cases we with
        | Resized w ht =>
            simp [handle_event, handleTrace] at ha
            rcases ha with rfl | rfl <;> rfl
        | CloseRequested =>
            simp [handle_event, handleTrace] at ha
            rcases ha with rfl | rfl <;> rfl
        | Other t =>
            simp [handle_event, handleTrace] at ha
            rcases ha with rfl | rfl <;> rfl
    | Other t =>
        simp [handle_event, handleTrace] at ha
        subst ha
        rfl

/-- Witness for C5 at a concrete succeeding environment. -/
theorem redraw_sequence_witness :
    handleTrace (handle_event envOkLib .RedrawRequested state0) =
      .setControlFlow .Wait ::
        successTrace
          { physical_width := 1280, physical_height := 720
            scale_factor := 2 } ∧
    isRedrawAction (.setControlFlow .Exit) = false := by
  have T := redraw_sequence envOkLib state0 7 rfl rfl .RedrawRequested rfl
  refine ⟨T.1, ?_⟩
  exact T.2 (.WindowEvent .CloseRequested) rfl (.setControlFlow .Exit)
    (by simp [handle_event, handleTrace])

/-- C9: a `Resized` window event stores exactly the new width and height in
the surface configuration, changing no other configuration field, and
reconfigures the surface with that configuration; every successful frame
takes its screen descriptor's physical width and height from the stored
configuration. -/
theorem resize_updates_surface_config (env : Env) (s : LoopState)
    (w h : Nat) :
    handle_event env (.WindowEvent (.Resized w h)) s =
      .ok ({ s with surface_config :=
               { s.surface_config with width := w, height := h } },
           ControlFlow.Wait,
           [.setControlFlow .Wait,
            .configureSurface
              { s.surface_config with width := w, height := h }]) ∧
    ∀ (env' : Env) (s1 s' : LoopState) (info : IntegrationInfo)
      (tr : List Action),
      redraw env' s1 = .ok (s', some info, tr) →
      Action.updateBuffers
          { physical_width := s1.surface_config.width
            physical_height := s1.surface_config.height
            scale_factor := env'.scale_factor } ∈ tr := by
  constructor
  · rfl
  · intro env' s1 s' info tr hh
    cases hg : env'.get_current_texture with
    | error e => simp [redraw, hg] at hh
    | ok f =>
        cases hx : env'.execute_result with
        | error e2 => simp [redraw, hg, hx] at hh
        | ok u =>
            cases u
            simp only [redraw, hg, hx, Except.ok.injEq, Prod.mk.injEq] at hh
            rcases hh with ⟨-, -, htr⟩
            rw [← htr]
            simp

/-- Witness for C9 at a concrete resize and a concrete successful frame. -/
theorem resize_updates_surface_config_witness :
    handle_event envOkLib (.WindowEvent (.Resized 640 480)) state0 =
      .ok ({ state0 with surface_config :=
               { state0.surface_config with width := 640, height := 480 } },
           ControlFlow.Wait,
           [.setControlFlow .Wait,
            .configureSurface
              { state0.surface_config with width := 640, height := 480 }]) ∧
    Action.updateBuffers
        { physical_width := 1280, physical_height := 720
          scale_factor := 2 } ∈
      successTrace
        { physical_width := 1280, physical_height := 720
          scale_factor := 2 } := by
  have T := resize_updates_surface_config envOkLib state0 640 480
  refine ⟨T.1, ?_⟩
  exact T.2 envOkLib state0
    { surface_config := cfg0, previous_frame_time := some 5
      winit_state := 11, ctx := 16, demo_app := 13, egui_rpass := 21 }
    { name := "egui_winit", web_info := none, cpu_usage := none
      native_pixels_per_point := some 2, prefer_dark_mode := none }
    (successTrace
      { physical_width := 1280, physical_height := 720, scale_factor := 2 })
    rfl

/-- On a redraw-triggering event, a dispatch from two states differing only
in `previous_frame_time` gives the same result up to that field, provided
the demo app's library update does not depend on the integration info it is
handed. -/
theorem erase_pft_qualifying (env : Env) (s : LoopState) (t t' : Option Nat)
    (hlib : ∀ d c r i i', env.demo_update d c r i = env.demo_update d c r i')
    (ev : WinitEvent) (hq : qualifying ev = true) :
    erasePFT (handle_event env ev { s with previous_frame_time := t }) =
      erasePFT (handle_event env ev { s with previous_frame_time := t' }) := by
  rw [handle_event_qualifying env ev _ hq, handle_event_qualifying env ev _ hq]
  cases hg : env.get_current_texture with
  | error e => simp [redraw, hg, erasePFT]
  | ok f =>
      have hd := hlib s.demo_app
        (env.begin_frame s.ctx (env.take_egui_input s.winit_state).1)
        s.egui_rpass
        { name := "egui_winit", web_info := none, cpu_usage := t
          native_pixels_per_point := some env.scale_factor
          prefer_dark_mode := none }
        { name := "egui_winit", web_info := none, cpu_usage := t'
          native_pixels_per_point := some env.scale_factor
          prefer_dark_mode := none }
      cases hx : env.execute_result with
      | error e2 => simp [redraw, hg, hx, erasePFT]
      | ok u =>
          cases u
          simp only [redraw, hg, hx, erasePFT]
          rw [hd]

/-- C8: `previous_frame_time` starts as `None`, is written only by a
successful redraw (to that frame's measured UI duration), is read only as
the `cpu_usage` field of the integration info handed to the UI frame, and
influences nothing else: two dispatches from states differing only in
`previous_frame_time` agree on everything but that field, whenever the demo
app's library update does not depend on the integration info. -/
theorem previous_frame_time_lifecycle (cfg : SurfaceConfiguration)
    (env : Env) (s : LoopState) :
    (initLoopState cfg).previous_frame_time = none ∧
    (∀ s' tr, redraw env s = .ok (s', none, tr) →
        s'.previous_frame_time = s.previous_frame_time) ∧
    (∀ s' info tr, redraw env s = .ok (s', some info, tr) →
        s'.previous_frame_time = some env.frame_time ∧
        info = { name := "egui_winit", web_info := none
                 cpu_usage := s.previous_frame_time
                 native_pixels_per_point := some env.scale_factor
                 prefer_dark_mode := none }) ∧
    (∀ ev s' cf tr, qualifying ev = false →
        handle_event env ev s = .ok (s', cf, tr) →
        s'.previous_frame_time = s.previous_frame_time) ∧
    ((∀ d c r i i', env.demo_update d c r i = env.demo_update d c r i') →
      ∀ ev t t',
        erasePFT (handle_event env ev { s with previous_frame_time := t }) =
          erasePFT (handle_event env ev { s with previous_frame_time := t' })) := by
  refine ⟨rfl, ?_, ?_, ?_, ?_⟩
  · intro s' tr h
    cases hg : env.get_current_texture with
    | error e =>
        simp only [redraw, hg, Except.ok.injEq, Prod.mk.injEq] at h
        rcases h with ⟨h1, -, -⟩
        rw [← h1]
    | ok f =>
        cases hx : env.execute_result with
        | error e2 => simp [redraw, hg, hx] at h
        | ok u => cases u; simp [redraw, hg, hx] at h
  · intro s' info tr h
    cases hg : env.get_current_texture with
    | error e => simp [redraw, hg] at h
    | ok f =>
        cases hx : env.execute_result with
        | error e2 => simp [redraw, hg, hx] at h
        | ok u =>
            cases u
            simp only [redraw, hg, hx, Except.ok.injEq, Prod.mk.injEq] at h
            rcases h with ⟨hS, hI, -⟩
            constructor
            · rw [← hS]
            · injection hI with h2
              rw [← h2]
  · intro ev s' cf tr hq h
    cases ev with
    | RedrawRequested => simp [qualifying] at hq
    | UserEvent e' => cases e'; simp [qualifying] at hq
    | MainEventsCleared => simp [qualifying] at hq
    | WindowEvent we =>
        cases we with
        | Resized w ht =>
            simp only [handle_event, Except.ok.injEq, Prod.mk.injEq] at h
            rcases h with ⟨h1, -, -⟩
            rw [← h1]
        | CloseRequested =>
            simp only [handle_event, Except.ok.injEq, Prod.mk.injEq] at h
            rcases h with ⟨h1, -, -⟩
            rw [← h1]
        | Other t =>
            simp only [handle_event, Except.ok.injEq, Prod.mk.injEq] at h
            rcases h with ⟨h1, -, -⟩
            rw [← h1]
    | Other t =>
        simp only [handle_event, Except.ok.injEq, Prod.mk.injEq] at h
        rcases h with ⟨h1, -, -⟩
        rw [← h1]
  · intro hlib ev t t'
    by_cases hq : qualifying ev = true
    · exact erase_pft_qualifying env s t t' hlib ev hq
    · cases ev with
      | RedrawRequested => simp [qualifying] at hq
      | UserEvent e' => cases e'; simp [qualifying] at hq
      | MainEventsCleared => simp [qualifying] at hq
      | WindowEvent we => cases we <;> simp [handle_event, erasePFT]
      | Other t2 => simp [handle_event, erasePFT]

/-- Witness for C8 at concrete states differing only in
`previous_frame_time`. -/
theorem previous_frame_time_lifecycle_witness :
    (initLoopState cfg0).previous_frame_time = none ∧
    erasePFT (handle_event envOkLib .RedrawRequested
        { state0 with previous_frame_time := some 1 }) =
      erasePFT (handle_event envOkLib .RedrawRequested
        { state0 with previous_frame_time := some 2 }) := by
  have T := previous_frame_time_lifecycle cfg0 envOkLib state0
  exact ⟨T.1, T.2.2.2.2 (fun d c r i i' => rfl) .RedrawRequested
    (some 1) (some 2)⟩

end EguiApp
